import Mathlib

/-!
Shallow embedding of the REBAL governance program (src/REBAL/src/lib.rs).

u64 values are modelled as `Nat` together with explicit `< 2 ^ 64` bounds where
overflow matters; i64 values are modelled as `Int` with explicit range checks
where the code performs checked subtraction.  `checked_*.unwrap()` panics are
modelled as the `TxError.overflow` outcome (they abort the transaction, like a
`require!` failure, but carry no program error code).  External CPI calls (SPL
token transfer, mint, the system-program lamport transfer) are modelled after
the SPL token program semantics; their failure is the `TxError.cpi` outcome.
A call returning `Except.error` aborts the whole transaction, so no account is
mutated in that case; the `run_*` wrappers make that explicit.
-/

def U64_MOD : Nat := 2 ^ 64

def I64_MIN : Int := -(2 ^ 63)

def I64_MAX : Int := 2 ^ 63 - 1

structure Pubkey where
  id : Nat
deriving DecidableEq, Repr

/-- `u64::checked_add`. -/
def checked_add (a b : Nat) : Option Nat :=
  if a + b < U64_MOD then some (a + b) else none

/-- `u64::checked_mul`. -/
def checked_mul (a b : Nat) : Option Nat :=
  if a * b < U64_MOD then some (a * b) else none

/-- `u64::checked_div` (`none` exactly on division by zero). -/
def checked_div (a b : Nat) : Option Nat :=
  if b = 0 then none else some (a / b)

/-- `i64::checked_sub` (`none` when the difference leaves the i64 range). -/
def checked_sub_i64 (a b : Int) : Option Int :=
  if I64_MIN ≤ a - b ∧ a - b ≤ I64_MAX then some (a - b) else none

/-- The Rust cast `u64 as i64` (two's-complement reinterpretation). -/
def u64_as_i64 (a : Nat) : Int :=
  if a < 2 ^ 63 then (a : Int) else (a : Int) - 2 ^ 64

/-- The program's `ErrorCode` enum. -/
inductive ErrorCode where
  | NotApproved
  | ProposalExpired
  | QuorumNotReached
  | AlreadyVoted
  | CooldownActive
  | NotWhitelisted
  | BadBasket
deriving DecidableEq, Repr

/-- Outcome of an aborted instruction: a `require!` error, a `.unwrap()` panic
on checked arithmetic, or a failed external (CPI) call. -/
inductive TxError where
  | program (e : ErrorCode)
  | overflow
  | cpi
deriving DecidableEq, Repr

/-- `Option.unwrap()` on checked arithmetic: a `none` is a fatal panic. -/
def bindU {α : Type} (o : Option Nat) (f : Nat → Except TxError α) :
    Except TxError α :=
  match o with
  | none => .error .overflow
  | some a => f a

/-- `i64` variant of `bindU`. -/
def bindI {α : Type} (o : Option Int) (f : Int → Except TxError α) :
    Except TxError α :=
  match o with
  | none => .error .overflow
  | some a => f a

/-- The `?` operator on a fallible CPI call. -/
def bindE {α β : Type} (x : Except TxError α) (f : α → Except TxError β) :
    Except TxError β :=
  match x with
  | .error e => .error e
  | .ok a => f a

-- ─── Accounts ─────────────────────────────────────────────────────────────

/-- `BasketConfig` account. -/
structure BasketConfig where
  initializer : Pubkey
  name : String
  description : String
  rebal_mint : Pubkey
  threshold : Nat
  strategy : Nat
  eligible_assets : List Pubkey
  quorum_percentage : Nat
  cooldown_seconds : Nat
  base_reward : Nat
  lamports_reward : Nat
  slash_factor : Nat
  last_rebalance_ts : Int
  whitelist : List Pubkey
  mint_auth_bump : Nat
  fee_vault_bump : Nat
deriving DecidableEq, Repr

/-- `ThresholdProposal` account. -/
structure ThresholdProposal where
  proposer : Pubkey
  basket : Pubkey
  proposed_threshold : Nat
  yes_votes : Nat
  no_votes : Nat
  snapshot_supply : Nat
  quorum_percentage : Nat
  expiration : Int
  voters : List Pubkey
deriving DecidableEq, Repr

/-- `StrategyProposal` account. -/
structure StrategyProposal where
  proposer : Pubkey
  basket : Pubkey
  proposed_strategy : Nat
  yes_votes : Nat
  no_votes : Nat
  snapshot_supply : Nat
  quorum_percentage : Nat
  expiration : Int
  voters : List Pubkey
deriving DecidableEq, Repr

/-- `AssetsProposal` account. -/
structure AssetsProposal where
  proposer : Pubkey
  basket : Pubkey
  proposed_assets : List Pubkey
  yes_votes : Nat
  no_votes : Nat
  snapshot_supply : Nat
  quorum_percentage : Nat
  expiration : Int
  voters : List Pubkey
deriving DecidableEq, Repr

/-- An SPL token account (the fields the program reads). -/
structure TokenAccount where
  mint : Pubkey
  amount : Nat
deriving DecidableEq, Repr

/-- SPL token `transfer`: requires matching mints, a sufficient source balance,
and no overflow of the destination balance. -/
def spl_transfer (src dst : TokenAccount) (amount : Nat) :
    Except TxError (TokenAccount × TokenAccount) :=
  if src.mint = dst.mint ∧ amount ≤ src.amount ∧ dst.amount + amount < U64_MOD then
    .ok ({ src with amount := src.amount - amount },
         { dst with amount := dst.amount + amount })
  else .error .cpi

/-- SPL token `mint_to`: requires the destination account to be of the minted
mint and no overflow of supply or destination balance.  Returns the new supply
and the new destination account. -/
def spl_mint_to (mint : Pubkey) (supply : Nat) (dst : TokenAccount)
    (amount : Nat) : Except TxError (Nat × TokenAccount) :=
  if dst.mint = mint ∧ supply + amount < U64_MOD ∧ dst.amount + amount < U64_MOD then
    .ok (supply + amount, { dst with amount := dst.amount + amount })
  else .error .cpi

/-- System-program lamport transfer: requires a sufficient source balance.
Returns the new source and destination lamport balances. -/
def lamport_transfer (src dst amount : Nat) : Except TxError (Nat × Nat) :=
  if amount ≤ src then .ok (src - amount, dst + amount) else .error .cpi

-- ─── Instructions ─────────────────────────────────────────────────────────

/-- `initialize_basket`: writes every field of the fresh `BasketConfig`
account from the instruction arguments, with no validation. -/
def initialize_basket (authority rebal_mint : Pubkey) (name description : String)
    (initial_threshold : Nat) (initial_strategy : Nat)
    (initial_assets : List Pubkey) (quorum_percentage : Nat)
    (cooldown_seconds base_reward lamports_reward slash_factor : Nat)
    (mint_auth_bump fee_vault_bump : Nat) : BasketConfig :=
  { initializer := authority
    name := name
    description := description
    rebal_mint := rebal_mint
    threshold := initial_threshold
    strategy := initial_strategy
    eligible_assets := initial_assets
    quorum_percentage := quorum_percentage
    cooldown_seconds := cooldown_seconds
    base_reward := base_reward
    lamports_reward := lamports_reward
    slash_factor := slash_factor
    last_rebalance_ts := 0
    whitelist := []
    mint_auth_bump := mint_auth_bump
    fee_vault_bump := fee_vault_bump }

/-- Accounts of `vote_threshold`. -/
structure VoteThresholdCtx where
  staker : Pubkey
  basket : BasketConfig
  threshold_proposal : ThresholdProposal
  staker_tokens : TokenAccount
  escrow : TokenAccount
deriving DecidableEq, Repr

/-- `vote_threshold`: expiry check, double-voting check, full-balance weight,
escrow transfer, checked tally update, voter registration. -/
def vote_threshold (ctx : VoteThresholdCtx) (accept : Bool) (now : Int) :
    Except TxError VoteThresholdCtx :=
  if now ≤ ctx.threshold_proposal.expiration then
    if ctx.staker ∈ ctx.threshold_proposal.voters then
      .error (.program .AlreadyVoted)
    else
      let weight := ctx.staker_tokens.amount
      bindE (spl_transfer ctx.staker_tokens ctx.escrow weight) fun moved =>
        let p := ctx.threshold_proposal
        bindU (if accept then checked_add p.yes_votes weight
               else checked_add p.no_votes weight) fun tally =>
          let p2 := if accept then { p with yes_votes := tally }
                    else { p with no_votes := tally }
          .ok { ctx with
                threshold_proposal := { p2 with voters := p2.voters ++ [ctx.staker] }
                staker_tokens := moved.1
                escrow := moved.2 }
  else .error (.program .ProposalExpired)

/-- `finalize_threshold`: expiry, quorum (checked arithmetic), strict
majority; on success writes `proposed_threshold` into the basket.  The
proposal account itself is never written. -/
def finalize_threshold (basket : BasketConfig) (p : ThresholdProposal)
    (now : Int) : Except TxError (BasketConfig × ThresholdProposal) :=
  if now ≤ p.expiration then
    bindU (checked_add p.yes_votes p.no_votes) fun total_votes =>
      bindU (checked_mul total_votes 100) fun lhs =>
        bindU (checked_mul p.snapshot_supply p.quorum_percentage) fun rhs =>
          if lhs ≥ rhs then
            if p.yes_votes > p.no_votes then
              .ok ({ basket with threshold := p.proposed_threshold }, p)
            else .error (.program .NotApproved)
          else .error (.program .QuorumNotReached)
  else .error (.program .ProposalExpired)

/-- Accounts of `vote_strategy`. -/
structure VoteStrategyCtx where
  staker : Pubkey
  basket : BasketConfig
  strategy_proposal : StrategyProposal
  staker_tokens : TokenAccount
  escrow : TokenAccount
deriving DecidableEq, Repr

/-- `vote_strategy`: same checks and effects as `vote_threshold`. -/
def vote_strategy (ctx : VoteStrategyCtx) (accept : Bool) (now : Int) :
    Except TxError VoteStrategyCtx :=
  if now ≤ ctx.strategy_proposal.expiration then
    if ctx.staker ∈ ctx.strategy_proposal.voters then
      .error (.program .AlreadyVoted)
    else
      let weight := ctx.staker_tokens.amount
      bindE (spl_transfer ctx.staker_tokens ctx.escrow weight) fun moved =>
        let p := ctx.strategy_proposal
        bindU (if accept then checked_add p.yes_votes weight
               else checked_add p.no_votes weight) fun tally =>
          let p2 := if accept then { p with yes_votes := tally }
                    else { p with no_votes := tally }
          .ok { ctx with
                strategy_proposal := { p2 with voters := p2.voters ++ [ctx.staker] }
                staker_tokens := moved.1
                escrow := moved.2 }
  else .error (.program .ProposalExpired)

/-- `finalize_strategy`: same checks as `finalize_threshold`; on success
writes `proposed_strategy` into the basket. -/
def finalize_strategy (basket : BasketConfig) (p : StrategyProposal)
    (now : Int) : Except TxError (BasketConfig × StrategyProposal) :=
  if now ≤ p.expiration then
    bindU (checked_add p.yes_votes p.no_votes) fun total_votes =>
      bindU (checked_mul total_votes 100) fun lhs =>
        bindU (checked_mul p.snapshot_supply p.quorum_percentage) fun rhs =>
          if lhs ≥ rhs then
            if p.yes_votes > p.no_votes then
              .ok ({ basket with strategy := p.proposed_strategy }, p)
            else .error (.program .NotApproved)
          else .error (.program .QuorumNotReached)
  else .error (.program .ProposalExpired)

/-- Accounts of `vote_assets`. -/
structure VoteAssetsCtx where
  staker : Pubkey
  basket : BasketConfig
  assets_proposal : AssetsProposal
  staker_tokens : TokenAccount
  escrow : TokenAccount
deriving DecidableEq, Repr

/-- `vote_assets`: same checks and effects as `vote_threshold`. -/
def vote_assets (ctx : VoteAssetsCtx) (accept : Bool) (now : Int) :
    Except TxError VoteAssetsCtx :=
  if now ≤ ctx.assets_proposal.expiration then
    if ctx.staker ∈ ctx.assets_proposal.voters then
      .error (.program .AlreadyVoted)
    else
      let weight := ctx.staker_tokens.amount
      bindE (spl_transfer ctx.staker_tokens ctx.escrow weight) fun moved =>
        let p := ctx.assets_proposal
        bindU (if accept then checked_add p.yes_votes weight
               else checked_add p.no_votes weight) fun tally =>
          let p2 := if accept then { p with yes_votes := tally }
                    else { p with no_votes := tally }
          .ok { ctx with
                assets_proposal := { p2 with voters := p2.voters ++ [ctx.staker] }
                staker_tokens := moved.1
                escrow := moved.2 }
  else .error (.program .ProposalExpired)

/-- `finalize_assets`: same checks as `finalize_threshold`; on success copies
`proposed_assets` into the basket. -/
def finalize_assets (basket : BasketConfig) (p : AssetsProposal)
    (now : Int) : Except TxError (BasketConfig × AssetsProposal) :=
  if now ≤ p.expiration then
    bindU (checked_add p.yes_votes p.no_votes) fun total_votes =>
      bindU (checked_mul total_votes 100) fun lhs =>
        bindU (checked_mul p.snapshot_supply p.quorum_percentage) fun rhs =>
          if lhs ≥ rhs then
            if p.yes_votes > p.no_votes then
              .ok ({ basket with eligible_assets := p.proposed_assets }, p)
            else .error (.program .NotApproved)
          else .error (.program .QuorumNotReached)
  else .error (.program .ProposalExpired)

/-- Accounts of `execute_rebalance` (the mint is identified with
`basket.rebal_mint` by the Anchor account constraint). -/
structure ExecuteRebalanceCtx where
  basket : BasketConfig
  rebal_mint_supply : Nat
  bot_token_account : TokenAccount
  bot_signer : Pubkey
  fee_vault_lamports : Nat
  bot_lamports : Nat
deriving DecidableEq, Repr

/-- `execute_rebalance`: cooldown gate (checked i64 subtraction against
`cooldown_seconds as i64`), whitelist gate, checked reward computation with
slashing, mint CPI, lamport transfer CPI, and only then the timestamp
update. -/
def execute_rebalance (ctx : ExecuteRebalanceCtx) (current_deviation : Nat)
    (now : Int) : Except TxError (ExecuteRebalanceCtx × Nat) :=
  let cfg := ctx.basket
  bindI (checked_sub_i64 now cfg.last_rebalance_ts) fun diff =>
    if diff ≥ u64_as_i64 cfg.cooldown_seconds then
      if cfg.whitelist = [] ∨ ctx.bot_signer ∈ cfg.whitelist then
        bindU (checked_mul cfg.base_reward current_deviation) fun scaled =>
          bindU (checked_div scaled cfg.threshold) fun base_amount =>
            bindU (if current_deviation > cfg.threshold then
                     checked_div base_amount cfg.slash_factor
                   else some base_amount) fun reward_amount =>
              bindE (spl_mint_to cfg.rebal_mint ctx.rebal_mint_supply
                       ctx.bot_token_account reward_amount) fun minted =>
                bindE (lamport_transfer ctx.fee_vault_lamports ctx.bot_lamports
                         cfg.lamports_reward) fun lam =>
                  .ok ({ ctx with
                         basket := { cfg with last_rebalance_ts := now }
                         rebal_mint_supply := minted.1
                         bot_token_account := minted.2
                         fee_vault_lamports := lam.1
                         bot_lamports := lam.2 }, reward_amount)
      else .error (.program .NotWhitelisted)
    else .error (.program .CooldownActive)

-- ─── Transaction wrappers (an error aborts with no state change) ──────────

/-- Runs `vote_threshold` with transactional semantics: on error every
account keeps its pre-call state. -/
def run_vote_threshold (ctx : VoteThresholdCtx) (accept : Bool) (now : Int) :
    VoteThresholdCtx :=
  match vote_threshold ctx accept now with
  | .ok c => c
  | .error _ => ctx

/-- Runs `vote_assets` with transactional semantics. -/
def run_vote_assets (ctx : VoteAssetsCtx) (accept : Bool) (now : Int) :
    VoteAssetsCtx :=
  match vote_assets ctx accept now with
  | .ok c => c
  | .error _ => ctx

/-- Runs `finalize_threshold` with transactional semantics. -/
def run_finalize_threshold (basket : BasketConfig) (p : ThresholdProposal)
    (now : Int) : BasketConfig × ThresholdProposal :=
  match finalize_threshold basket p now with
  | .ok r => r
  | .error _ => (basket, p)

/-- Runs `finalize_assets` with transactional semantics. -/
def run_finalize_assets (basket : BasketConfig) (p : AssetsProposal)
    (now : Int) : BasketConfig × AssetsProposal :=
  match finalize_assets basket p now with
  | .ok r => r
  | .error _ => (basket, p)

/-- The reward formula as the specification states it:
`base_reward * currentDeviation / threshold`, additionally divided by
`slash_factor` when `currentDeviation > threshold` (truncating division). -/
def spec_reward (cfg : BasketConfig) (current_deviation : Nat) : Nat :=
  if current_deviation > cfg.threshold then
    cfg.base_reward * current_deviation / cfg.threshold / cfg.slash_factor
  else
    cfg.base_reward * current_deviation / cfg.threshold

-- ─── Decidable equality for instruction results ──────────────────────────

instance {ε α : Type} [DecidableEq ε] [DecidableEq α] : DecidableEq (Except ε α) :=
  fun x y =>
    match x, y with
    | .ok a, .ok b =>
      if h : a = b then .isTrue (congrArg Except.ok h)
      else .isFalse fun hc => h (Except.ok.inj hc)
    | .ok _, .error _ => .isFalse fun hc => Except.noConfusion hc
    | .error _, .ok _ => .isFalse fun hc => Except.noConfusion hc
    | .error e, .error f =>
      if h : e = f then .isTrue (congrArg Except.error h)
      else .isFalse fun hc => h (Except.error.inj hc)

-- ─── Concrete sample states ───────────────────────────────────────────────

def PK (n : Nat) : Pubkey := ⟨n⟩

/-- A basket as produced by `initialize_basket` with ordinary parameters:
threshold 10, quorum 50 %, cooldown 60 s, base reward 100, lamport reward 10,
slash factor 2. -/
def B1 : BasketConfig :=
  initialize_basket (PK 1) (PK 2) "basket" "demo" 10 1 [] 50 60 100 10 2 255 254

/-- A threshold proposal that meets quorum (3 of 3 supply voted) and strict
majority (2 yes vs 1 no), expiring at t = 10. -/
def P1 : ThresholdProposal :=
  { proposer := PK 3
    basket := PK 9
    proposed_threshold := 25
    yes_votes := 2
    no_votes := 1
    snapshot_supply := 3
    quorum_percentage := 100
    expiration := 10
    voters := [PK 3] }

/-- A strategy proposal with the same tallies as `P1`. -/
def Q1 : StrategyProposal :=
  { proposer := PK 3
    basket := PK 9
    proposed_strategy := 2
    yes_votes := 2
    no_votes := 1
    snapshot_supply := 3
    quorum_percentage := 100
    expiration := 10
    voters := [PK 3] }

/-- An assets proposal with the same tallies as `P1`. -/
def A1 : AssetsProposal :=
  { proposer := PK 3
    basket := PK 9
    proposed_assets := [PK 7]
    yes_votes := 2
    no_votes := 1
    snapshot_supply := 3
    quorum_percentage := 100
    expiration := 10
    voters := [PK 3] }

/-- A vote context whose staker `PK 3` has already voted and whose proposal
expired at t = 5. -/
def C2ctx : VoteThresholdCtx :=
  { staker := PK 3
    basket := B1
    threshold_proposal := { P1 with expiration := 5 }
    staker_tokens := { mint := PK 2, amount := 7 }
    escrow := { mint := PK 2, amount := 0 } }

/-- An assets vote context whose staker `PK 3` has already voted; the
proposal expires at t = 10. -/
def C2actx : VoteAssetsCtx :=
  { staker := PK 3
    basket := B1
    assets_proposal := A1
    staker_tokens := { mint := PK 2, amount := 7 }
    escrow := { mint := PK 2, amount := 0 } }

/-- An incentive-engine context over `B1` (cooldown 60 s, never rebalanced,
empty whitelist). -/
def R1 : ExecuteRebalanceCtx :=
  { basket := B1
    rebal_mint_supply := 1000
    bot_token_account := { mint := PK 2, amount := 0 }
    bot_signer := PK 4
    fee_vault_lamports := 1000000
    bot_lamports := 0 }

/-- A basket initialized with `initial_threshold = 0` — accepted without any
validation. -/
def B0 : BasketConfig :=
  initialize_basket (PK 1) (PK 2) "basket" "demo" 0 1 [] 50 60 100 10 2 255 254

/-- An incentive-engine context over the zero-threshold basket `B0`. -/
def R0 : ExecuteRebalanceCtx :=
  { basket := B0
    rebal_mint_supply := 1000
    bot_token_account := { mint := PK 2, amount := 0 }
    bot_signer := PK 4
    fee_vault_lamports := 1000000
    bot_lamports := 0 }

/-- `B1` with `cooldown_seconds = 2 ^ 63` (wraps negative under `as i64`)
and a previous rebalance at t = 100. -/
def B6 : BasketConfig :=
  { B1 with cooldown_seconds := 2 ^ 63, last_rebalance_ts := 100 }

/-- An incentive-engine context over `B6`. -/
def R6 : ExecuteRebalanceCtx :=
  { basket := B6
    rebal_mint_supply := 1000
    bot_token_account := { mint := PK 2, amount := 0 }
    bot_signer := PK 4
    fee_vault_lamports := 1000000
    bot_lamports := 0 }

/-- `R1` with a previous rebalance at t = 50 (cooldown 60 s still running at
t = 80). -/
def R6b : ExecuteRebalanceCtx :=
  { R1 with basket := { B1 with last_rebalance_ts := 50 } }

/-- `P1` with no votes at all: quorum fails. -/
def P8 : ThresholdProposal :=
  { P1 with yes_votes := 0, no_votes := 0, voters := [] }

/-- `A1` with no votes at all: quorum fails. -/
def A8 : AssetsProposal :=
  { A1 with yes_votes := 0, no_votes := 0, voters := [] }

/-- `P1` with `yes_votes = 0` (one no-vote of weight 1). -/
def P9 : ThresholdProposal :=
  { P1 with yes_votes := 0 }

/-- `A1` with `yes_votes = 0` (one no-vote of weight 1). -/
def A9 : AssetsProposal :=
  { A1 with yes_votes := 0 }

/-- A fresh staker `PK 5` with an empty holding account voting on `P1`. -/
def C10ctx : VoteThresholdCtx :=
  { staker := PK 5
    basket := B1
    threshold_proposal := P1
    staker_tokens := { mint := PK 2, amount := 0 }
    escrow := { mint := PK 2, amount := 0 } }

/-- A fresh staker `PK 5` with an empty holding account voting on `Q1`. -/
def C10sctx : VoteStrategyCtx :=
  { staker := PK 5
    basket := B1
    strategy_proposal := Q1
    staker_tokens := { mint := PK 2, amount := 0 }
    escrow := { mint := PK 2, amount := 0 } }

-- ─── Theorems ────────────────────────────────────────────────────────────

@[simp] theorem bindU_some {α : Type} (a : Nat) (f : Nat → Except TxError α) :
    bindU (some a) f = f a := rfl

@[simp] theorem bindU_none {α : Type} (f : Nat → Except TxError α) :
    bindU none f = .error .overflow := rfl

@[simp] theorem bindI_some {α : Type} (a : Int) (f : Int → Except TxError α) :
    bindI (some a) f = f a := rfl

@[simp] theorem bindI_none {α : Type} (f : Int → Except TxError α) :
    bindI none f = .error .overflow := rfl

@[simp] theorem bindE_ok {α β : Type} (a : α) (f : α → Except TxError β) :
    bindE (.ok a) f = f a := rfl

@[simp] theorem bindE_error {α β : Type} (e : TxError) (f : α → Except TxError β) :
    bindE (.error e) f = .error e := rfl

-- ─── Arithmetic helper lemmas ─────────────────────────────────────────────

theorem checked_add_eq_some (a b : Nat) (h : a + b < U64_MOD) :
    checked_add a b = some (a + b) := by
  simp [checked_add, h]

theorem checked_mul_eq_some (a b : Nat) (h : a * b < U64_MOD) :
    checked_mul a b = some (a * b) := by
  simp [checked_mul, h]

theorem checked_div_eq_some (a b : Nat) (h : 0 < b) :
    checked_div a b = some (a / b) := by
  simp [checked_div, Nat.pos_iff_ne_zero.mp h]

theorem checked_sub_i64_eq_some (a b : Int) (h1 : I64_MIN ≤ a - b)
    (h2 : a - b ≤ I64_MAX) : checked_sub_i64 a b = some (a - b) := by
  simp [checked_sub_i64, h1, h2]

theorem u64_as_i64_of_lt (a : Nat) (h : a < 2 ^ 63) : u64_as_i64 a = (a : Int) := by
  unfold u64_as_i64
  rw [if_pos h]

-- ─── Finalize characterization lemmas ─────────────────────────────────────

/-- Closed form of `finalize_threshold` when no checked operation overflows. -/
theorem finalize_threshold_eq (b : BasketConfig) (p : ThresholdProposal)
    (now : Int) (h1 : p.yes_votes + p.no_votes < U64_MOD)
    (h2 : (p.yes_votes + p.no_votes) * 100 < U64_MOD)
    (h3 : p.snapshot_supply * p.quorum_percentage < U64_MOD) :
    finalize_threshold b p now =
      if now ≤ p.expiration then
        if (p.yes_votes + p.no_votes) * 100 ≥ p.snapshot_supply * p.quorum_percentage then
          if p.yes_votes > p.no_votes then
            .ok ({ b with threshold := p.proposed_threshold }, p)
          else .error (.program .NotApproved)
        else .error (.program .QuorumNotReached)
      else .error (.program .ProposalExpired) := by
  unfold finalize_threshold
  rw [checked_add_eq_some _ _ h1, bindU_some, checked_mul_eq_some _ _ h2,
    bindU_some, checked_mul_eq_some _ _ h3, bindU_some]

/-- Closed form of `finalize_strategy` when no checked operation overflows. -/
theorem finalize_strategy_eq (b : BasketConfig) (p : StrategyProposal)
    (now : Int) (h1 : p.yes_votes + p.no_votes < U64_MOD)
    (h2 : (p.yes_votes + p.no_votes) * 100 < U64_MOD)
    (h3 : p.snapshot_supply * p.quorum_percentage < U64_MOD) :
    finalize_strategy b p now =
      if now ≤ p.expiration then
        if (p.yes_votes + p.no_votes) * 100 ≥ p.snapshot_supply * p.quorum_percentage then
          if p.yes_votes > p.no_votes then
            .ok ({ b with strategy := p.proposed_strategy }, p)
          else .error (.program .NotApproved)
        else .error (.program .QuorumNotReached)
      else .error (.program .ProposalExpired) := by
  unfold finalize_strategy
  rw [checked_add_eq_some _ _ h1, bindU_some, checked_mul_eq_some _ _ h2,
    bindU_some, checked_mul_eq_some _ _ h3, bindU_some]

/-- Closed form of `finalize_assets` when no checked operation overflows. -/
theorem finalize_assets_eq (b : BasketConfig) (p : AssetsProposal)
    (now : Int) (h1 : p.yes_votes + p.no_votes < U64_MOD)
    (h2 : (p.yes_votes + p.no_votes) * 100 < U64_MOD)
    (h3 : p.snapshot_supply * p.quorum_percentage < U64_MOD) :
    finalize_assets b p now =
      if now ≤ p.expiration then
        if (p.yes_votes + p.no_votes) * 100 ≥ p.snapshot_supply * p.quorum_percentage then
          if p.yes_votes > p.no_votes then
            .ok ({ b with eligible_assets := p.proposed_assets }, p)
          else .error (.program .NotApproved)
        else .error (.program .QuorumNotReached)
      else .error (.program .ProposalExpired) := by
  unfold finalize_assets
  rw [checked_add_eq_some _ _ h1, bindU_some, checked_mul_eq_some _ _ h2,
    bindU_some, checked_mul_eq_some _ _ h3, bindU_some]

-- ─── Vote characterization lemmas ─────────────────────────────────────────

/-- An expired proposal rejects every vote, first check in the code. -/
theorem vote_threshold_expired (ctx : VoteThresholdCtx) (accept : Bool)
    (now : Int) (h : ¬ now ≤ ctx.threshold_proposal.expiration) :
    vote_threshold ctx accept now = .error (.program .ProposalExpired) := by
  unfold vote_threshold
  rw [if_neg h]

/-- A repeat voter is rejected with `AlreadyVoted` when the proposal is not
expired. -/
theorem vote_threshold_already (ctx : VoteThresholdCtx) (accept : Bool)
    (now : Int) (h1 : now ≤ ctx.threshold_proposal.expiration)
    (h2 : ctx.staker ∈ ctx.threshold_proposal.voters) :
    vote_threshold ctx accept now = .error (.program .AlreadyVoted) := by
  unfold vote_threshold
  rw [if_pos h1, if_pos h2]

/-- Assets variant of `vote_threshold_expired`. -/
theorem vote_assets_expired (ctx : VoteAssetsCtx) (accept : Bool)
    (now : Int) (h : ¬ now ≤ ctx.assets_proposal.expiration) :
    vote_assets ctx accept now = .error (.program .ProposalExpired) := by
  unfold vote_assets
  rw [if_neg h]

/-- Assets variant of `vote_threshold_already`. -/
theorem vote_assets_already (ctx : VoteAssetsCtx) (accept : Bool)
    (now : Int) (h1 : now ≤ ctx.assets_proposal.expiration)
    (h2 : ctx.staker ∈ ctx.assets_proposal.voters) :
    vote_assets ctx accept now = .error (.program .AlreadyVoted) := by
  unfold vote_assets
  rw [if_pos h1, if_pos h2]

/-- Strategy variant of `vote_threshold_already`. -/
theorem vote_strategy_already (ctx : VoteStrategyCtx) (accept : Bool)
    (now : Int) (h1 : now ≤ ctx.strategy_proposal.expiration)
    (h2 : ctx.staker ∈ ctx.strategy_proposal.voters) :
    vote_strategy ctx accept now = .error (.program .AlreadyVoted) := by
  unfold vote_strategy
  rw [if_pos h1, if_pos h2]

/-- A fresh voter whose holding account is empty votes successfully with
weight `0`: the tallies stay put and only the voter list grows. -/
theorem vote_threshold_zero (ctx : VoteThresholdCtx) (accept : Bool) (now : Int)
    (hexp : now ≤ ctx.threshold_proposal.expiration)
    (hmem : ctx.staker ∉ ctx.threshold_proposal.voters)
    (hz : ctx.staker_tokens.amount = 0)
    (hmint : ctx.staker_tokens.mint = ctx.escrow.mint)
    (hesc : ctx.escrow.amount < U64_MOD)
    (hy : ctx.threshold_proposal.yes_votes < U64_MOD)
    (hn : ctx.threshold_proposal.no_votes < U64_MOD) :
    vote_threshold ctx accept now =
      .ok { ctx with threshold_proposal :=
              { ctx.threshold_proposal with
                voters := ctx.threshold_proposal.voters ++ [ctx.staker] } } := by
  cases accept <;>
    (simp [vote_threshold, hexp, hmem, hz, spl_transfer, hmint, hesc,
       checked_add, hy, hn]
     rw [← hmint, ← hz])

/-- Strategy variant of `vote_threshold_zero`. -/
theorem vote_strategy_zero (ctx : VoteStrategyCtx) (accept : Bool) (now : Int)
    (hexp : now ≤ ctx.strategy_proposal.expiration)
    (hmem : ctx.staker ∉ ctx.strategy_proposal.voters)
    (hz : ctx.staker_tokens.amount = 0)
    (hmint : ctx.staker_tokens.mint = ctx.escrow.mint)
    (hesc : ctx.escrow.amount < U64_MOD)
    (hy : ctx.strategy_proposal.yes_votes < U64_MOD)
    (hn : ctx.strategy_proposal.no_votes < U64_MOD) :
    vote_strategy ctx accept now =
      .ok { ctx with strategy_proposal :=
              { ctx.strategy_proposal with
                voters := ctx.strategy_proposal.voters ++ [ctx.staker] } } := by
  cases accept <;>
    (simp [vote_strategy, hexp, hmem, hz, spl_transfer, hmint, hesc,
       checked_add, hy, hn]
     rw [← hmint, ← hz])

-- ─── Execute-rebalance characterization lemmas ────────────────────────────

theorem bindU_ne_error_program {α : Type} (o : Option Nat)
    (f : Nat → Except TxError α) (e : ErrorCode)
    (h : ∀ a, f a ≠ .error (.program e)) :
    bindU o f ≠ .error (.program e) := by
  cases o with
  | none => simp [bindU]
  | some a => simpa [bindU] using h a

theorem bindE_ne_error_program {α β : Type} (x : Except TxError α)
    (f : α → Except TxError β) (e : ErrorCode)
    (hx : x ≠ .error (.program e)) (h : ∀ a, f a ≠ .error (.program e)) :
    bindE x f ≠ .error (.program e) := by
  cases x with
  | error e2 => simpa [bindE] using hx
  | ok a => simpa [bindE] using h a

theorem spl_mint_to_ne_error_program (mint : Pubkey) (supply : Nat)
    (dst : TokenAccount) (amount : Nat) (e : ErrorCode) :
    spl_mint_to mint supply dst amount ≠ .error (.program e) := by
  unfold spl_mint_to
  split <;> simp

theorem lamport_transfer_ne_error_program (src dst amount : Nat)
    (e : ErrorCode) :
    lamport_transfer src dst amount ≠ .error (.program e) := by
  unfold lamport_transfer
  split <;> simp

/-- Once the cooldown gate has passed, no later step of `execute_rebalance`
can produce `CooldownActive`. -/
theorem execute_rebalance_not_cooldown (ctx : ExecuteRebalanceCtx) (dev : Nat)
    (now : Int) (h1 : I64_MIN ≤ now - ctx.basket.last_rebalance_ts)
    (h2 : now - ctx.basket.last_rebalance_ts ≤ I64_MAX)
    (hcool : now - ctx.basket.last_rebalance_ts ≥
      u64_as_i64 ctx.basket.cooldown_seconds) :
    execute_rebalance ctx dev now ≠ .error (.program .CooldownActive) := by
  simp only [execute_rebalance]
  rw [checked_sub_i64_eq_some _ _ h1 h2, bindI_some, if_pos hcool]
  split
  · apply bindU_ne_error_program
    intro scaled
    apply bindU_ne_error_program
    intro base_amount
    apply bindU_ne_error_program
    intro reward_amount
    apply bindE_ne_error_program
    · apply spl_mint_to_ne_error_program
    intro minted
    apply bindE_ne_error_program
    · apply lamport_transfer_ne_error_program
    intro lam
    simp
  · simp

/-- When `cooldown_seconds` fits in an i64 (so the Rust `as i64` cast is
value-preserving) and the timestamp difference stays inside the i64 range,
`execute_rebalance` fails with `CooldownActive` exactly when
`now - last_rebalance_ts < cooldown_seconds`. -/
theorem execute_rebalance_cooldown_iff (ctx : ExecuteRebalanceCtx) (dev : Nat)
    (now : Int) (h1 : I64_MIN ≤ now - ctx.basket.last_rebalance_ts)
    (h2 : now - ctx.basket.last_rebalance_ts ≤ I64_MAX)
    (h3 : ctx.basket.cooldown_seconds < 2 ^ 63) :
    execute_rebalance ctx dev now = .error (.program .CooldownActive) ↔
      now - ctx.basket.last_rebalance_ts < (ctx.basket.cooldown_seconds : Int) := by
  rw [← u64_as_i64_of_lt _ h3]
  constructor
  · intro h
    by_contra hge
    exact execute_rebalance_not_cooldown ctx dev now h1 h2 (not_lt.mp hge) h
  · intro hlt
    simp only [execute_rebalance]
    rw [checked_sub_i64_eq_some _ _ h1 h2, bindI_some, if_neg (not_le.mpr hlt)]

/-- Closed form of a fully successful `execute_rebalance`: the minted amount
is exactly `spec_reward`. -/
theorem execute_rebalance_ok_eq (ctx : ExecuteRebalanceCtx) (dev : Nat)
    (now : Int) (h1 : I64_MIN ≤ now - ctx.basket.last_rebalance_ts)
    (h2 : now - ctx.basket.last_rebalance_ts ≤ I64_MAX)
    (hcool : now - ctx.basket.last_rebalance_ts ≥
      u64_as_i64 ctx.basket.cooldown_seconds)
    (hwl : ctx.basket.whitelist = [] ∨ ctx.bot_signer ∈ ctx.basket.whitelist)
    (hth : 0 < ctx.basket.threshold)
    (hmul : ctx.basket.base_reward * dev < U64_MOD)
    (hsl : dev > ctx.basket.threshold → 0 < ctx.basket.slash_factor)
    (hbm : ctx.bot_token_account.mint = ctx.basket.rebal_mint)
    (hsup : ctx.rebal_mint_supply + spec_reward ctx.basket dev < U64_MOD)
    (hbal : ctx.bot_token_account.amount + spec_reward ctx.basket dev < U64_MOD)
    (hlam : ctx.basket.lamports_reward ≤ ctx.fee_vault_lamports) :
    execute_rebalance ctx dev now =
      .ok ({ ctx with
             basket := { ctx.basket with last_rebalance_ts := now }
             rebal_mint_supply := ctx.rebal_mint_supply + spec_reward ctx.basket dev
             bot_token_account := { ctx.bot_token_account with
               amount := ctx.bot_token_account.amount + spec_reward ctx.basket dev }
             fee_vault_lamports := ctx.fee_vault_lamports - ctx.basket.lamports_reward
             bot_lamports := ctx.bot_lamports + ctx.basket.lamports_reward },
           spec_reward ctx.basket dev) := by
  have hmint : spl_mint_to ctx.basket.rebal_mint ctx.rebal_mint_supply
      ctx.bot_token_account (spec_reward ctx.basket dev) =
      .ok (ctx.rebal_mint_supply + spec_reward ctx.basket dev,
           { ctx.bot_token_account with
             amount := ctx.bot_token_account.amount + spec_reward ctx.basket dev }) := by
    unfold spl_mint_to
    rw [if_pos ⟨hbm, hsup, hbal⟩]
  have hlamt : lamport_transfer ctx.fee_vault_lamports ctx.bot_lamports
      ctx.basket.lamports_reward =
      .ok (ctx.fee_vault_lamports - ctx.basket.lamports_reward,
           ctx.bot_lamports + ctx.basket.lamports_reward) := by
    unfold lamport_transfer
    rw [if_pos hlam]
  simp only [execute_rebalance]
  rw [checked_sub_i64_eq_some _ _ h1 h2, bindI_some, if_pos hcool, if_pos hwl,
    checked_mul_eq_some _ _ hmul, bindU_some, checked_div_eq_some _ _ hth,
    bindU_some]
  by_cases hgt : dev > ctx.basket.threshold
  · rw [if_pos hgt, checked_div_eq_some _ _ (hsl hgt), bindU_some,
      show ctx.basket.base_reward * dev / ctx.basket.threshold /
          ctx.basket.slash_factor = spec_reward ctx.basket dev from by
        rw [spec_reward, if_pos hgt],
      hmint, bindE_ok, hlamt, bindE_ok]
  · rw [if_neg hgt, bindU_some,
      show ctx.basket.base_reward * dev / ctx.basket.threshold
          = spec_reward ctx.basket dev from by rw [spec_reward, if_neg hgt],
      hmint, bindE_ok, hlamt, bindE_ok]

-- ─── Finalize specification lemmas ────────────────────────────────────────

/-- Outcome table of `finalize_threshold` under non-overflowing arithmetic. -/
theorem finalize_threshold_spec (b : BasketConfig) (p : ThresholdProposal)
    (now : Int) (h1 : p.yes_votes + p.no_votes < U64_MOD)
    (h2 : (p.yes_votes + p.no_votes) * 100 < U64_MOD)
    (h3 : p.snapshot_supply * p.quorum_percentage < U64_MOD) :
    ((∃ r, finalize_threshold b p now = .ok r) ↔
      ((p.yes_votes + p.no_votes) * 100 ≥ p.snapshot_supply * p.quorum_percentage ∧
        p.yes_votes > p.no_votes ∧ now ≤ p.expiration)) ∧
    (¬ (p.yes_votes + p.no_votes) * 100 ≥ p.snapshot_supply * p.quorum_percentage ∧
        p.yes_votes > p.no_votes ∧ now ≤ p.expiration →
      finalize_threshold b p now = .error (.program .QuorumNotReached)) ∧
    ((p.yes_votes + p.no_votes) * 100 ≥ p.snapshot_supply * p.quorum_percentage ∧
        ¬ p.yes_votes > p.no_votes ∧ now ≤ p.expiration →
      finalize_threshold b p now = .error (.program .NotApproved)) ∧
    ((p.yes_votes + p.no_votes) * 100 ≥ p.snapshot_supply * p.quorum_percentage ∧
        p.yes_votes > p.no_votes ∧ ¬ now ≤ p.expiration →
      finalize_threshold b p now = .error (.program .ProposalExpired)) := by
  have heq := finalize_threshold_eq b p now h1 h2 h3
  refine ⟨⟨?_, ?_⟩, ?_, ?_, ?_⟩
  · rintro ⟨r, hr⟩
    rw [heq] at hr
    split_ifs at hr with hxe hxq hxm
    · exact ⟨hxq, hxm, hxe⟩
  · rintro ⟨hxq, hxm, hxe⟩
    exact ⟨_, by rw [heq, if_pos hxe, if_pos hxq, if_pos hxm]⟩
  · rintro ⟨hxq, hxm, hxe⟩
    rw [heq, if_pos hxe, if_neg hxq]
  · rintro ⟨hxq, hxm, hxe⟩
    rw [heq, if_pos hxe, if_pos hxq, if_neg hxm]
  · rintro ⟨hxq, hxm, hxe⟩
    rw [heq, if_neg hxe]

/-- Outcome table of `finalize_strategy` under non-overflowing arithmetic. -/
theorem finalize_strategy_spec (b : BasketConfig) (p : StrategyProposal)
    (now : Int) (h1 : p.yes_votes + p.no_votes < U64_MOD)
    (h2 : (p.yes_votes + p.no_votes) * 100 < U64_MOD)
    (h3 : p.snapshot_supply * p.quorum_percentage < U64_MOD) :
    ((∃ r, finalize_strategy b p now = .ok r) ↔
      ((p.yes_votes + p.no_votes) * 100 ≥ p.snapshot_supply * p.quorum_percentage ∧
        p.yes_votes > p.no_votes ∧ now ≤ p.expiration)) ∧
    (¬ (p.yes_votes + p.no_votes) * 100 ≥ p.snapshot_supply * p.quorum_percentage ∧
        p.yes_votes > p.no_votes ∧ now ≤ p.expiration →
      finalize_strategy b p now = .error (.program .QuorumNotReached)) ∧
    ((p.yes_votes + p.no_votes) * 100 ≥ p.snapshot_supply * p.quorum_percentage ∧
        ¬ p.yes_votes > p.no_votes ∧ now ≤ p.expiration →
      finalize_strategy b p now = .error (.program .NotApproved)) ∧
    ((p.yes_votes + p.no_votes) * 100 ≥ p.snapshot_supply * p.quorum_percentage ∧
        p.yes_votes > p.no_votes ∧ ¬ now ≤ p.expiration →
      finalize_strategy b p now = .error (.program .ProposalExpired)) := by
  have heq := finalize_strategy_eq b p now h1 h2 h3
  refine ⟨⟨?_, ?_⟩, ?_, ?_, ?_⟩
  · rintro ⟨r, hr⟩
    rw [heq] at hr
    split_ifs at hr with hxe hxq hxm
    · exact ⟨hxq, hxm, hxe⟩
  · rintro ⟨hxq, hxm, hxe⟩
    exact ⟨_, by rw [heq, if_pos hxe, if_pos hxq, if_pos hxm]⟩
  · rintro ⟨hxq, hxm, hxe⟩
    rw [heq, if_pos hxe, if_neg hxq]
  · rintro ⟨hxq, hxm, hxe⟩
    rw [heq, if_pos hxe, if_pos hxq, if_neg hxm]
  · rintro ⟨hxq, hxm, hxe⟩
    rw [heq, if_neg hxe]

/-- Outcome table of `finalize_assets` under non-overflowing arithmetic. -/
theorem finalize_assets_spec (b : BasketConfig) (p : AssetsProposal)
    (now : Int) (h1 : p.yes_votes + p.no_votes < U64_MOD)
    (h2 : (p.yes_votes + p.no_votes) * 100 < U64_MOD)
    (h3 : p.snapshot_supply * p.quorum_percentage < U64_MOD) :
    ((∃ r, finalize_assets b p now = .ok r) ↔
      ((p.yes_votes + p.no_votes) * 100 ≥ p.snapshot_supply * p.quorum_percentage ∧
        p.yes_votes > p.no_votes ∧ now ≤ p.expiration)) ∧
    (¬ (p.yes_votes + p.no_votes) * 100 ≥ p.snapshot_supply * p.quorum_percentage ∧
        p.yes_votes > p.no_votes ∧ now ≤ p.expiration →
      finalize_assets b p now = .error (.program .QuorumNotReached)) ∧
    ((p.yes_votes + p.no_votes) * 100 ≥ p.snapshot_supply * p.quorum_percentage ∧
        ¬ p.yes_votes > p.no_votes ∧ now ≤ p.expiration →
      finalize_assets b p now = .error (.program .NotApproved)) ∧
    ((p.yes_votes + p.no_votes) * 100 ≥ p.snapshot_supply * p.quorum_percentage ∧
        p.yes_votes > p.no_votes ∧ ¬ now ≤ p.expiration →
      finalize_assets b p now = .error (.program .ProposalExpired)) := by
  have heq := finalize_assets_eq b p now h1 h2 h3
  refine ⟨⟨?_, ?_⟩, ?_, ?_, ?_⟩
  · rintro ⟨r, hr⟩
    rw [heq] at hr
    split_ifs at hr with hxe hxq hxm
    · exact ⟨hxq, hxm, hxe⟩
  · rintro ⟨hxq, hxm, hxe⟩
    exact ⟨_, by rw [heq, if_pos hxe, if_pos hxq, if_pos hxm]⟩
  · rintro ⟨hxq, hxm, hxe⟩
    rw [heq, if_pos hxe, if_neg hxq]
  · rintro ⟨hxq, hxm, hxe⟩
    rw [heq, if_pos hxe, if_pos hxq, if_neg hxm]
  · rintro ⟨hxq, hxm, hxe⟩
    rw [heq, if_neg hxe]

-- ─── C1 ───────────────────────────────────────────────────────────────────

/-- C1: for fixed `snapshot_supply` and `quorum_percentage`, with the checked
arithmetic of the quorum computation not overflowing, `finalize_threshold`
and `finalize_strategy` succeed (apply the payload to the basket) iff
`(yes + no) * 100 ≥ snapshot_supply * quorum_percentage` AND `yes > no` AND
`now ≤ expiration`; when exactly one of these three conditions is false the
call fails with, respectively, `QuorumNotReached`, `NotApproved`,
`ProposalExpired`. -/
theorem claim1_finalize_iff (b : BasketConfig) (p : ThresholdProposal)
    (q : StrategyProposal) (now : Int)
    (hp1 : p.yes_votes + p.no_votes < U64_MOD)
    (hp2 : (p.yes_votes + p.no_votes) * 100 < U64_MOD)
    (hp3 : p.snapshot_supply * p.quorum_percentage < U64_MOD)
    (hq1 : q.yes_votes + q.no_votes < U64_MOD)
    (hq2 : (q.yes_votes + q.no_votes) * 100 < U64_MOD)
    (hq3 : q.snapshot_supply * q.quorum_percentage < U64_MOD) :
    (((∃ r, finalize_threshold b p now = .ok r) ↔
      ((p.yes_votes + p.no_votes) * 100 ≥ p.snapshot_supply * p.quorum_percentage ∧
        p.yes_votes > p.no_votes ∧ now ≤ p.expiration)) ∧
     (¬ (p.yes_votes + p.no_votes) * 100 ≥ p.snapshot_supply * p.quorum_percentage ∧
        p.yes_votes > p.no_votes ∧ now ≤ p.expiration →
       finalize_threshold b p now = .error (.program .QuorumNotReached)) ∧
     ((p.yes_votes + p.no_votes) * 100 ≥ p.snapshot_supply * p.quorum_percentage ∧
        ¬ p.yes_votes > p.no_votes ∧ now ≤ p.expiration →
       finalize_threshold b p now = .error (.program .NotApproved)) ∧
     ((p.yes_votes + p.no_votes) * 100 ≥ p.snapshot_supply * p.quorum_percentage ∧
        p.yes_votes > p.no_votes ∧ ¬ now ≤ p.expiration →
       finalize_threshold b p now = .error (.program .ProposalExpired))) ∧
    (((∃ r, finalize_strategy b q now = .ok r) ↔
      ((q.yes_votes + q.no_votes) * 100 ≥ q.snapshot_supply * q.quorum_percentage ∧
        q.yes_votes > q.no_votes ∧ now ≤ q.expiration)) ∧
     (¬ (q.yes_votes + q.no_votes) * 100 ≥ q.snapshot_supply * q.quorum_percentage ∧
        q.yes_votes > q.no_votes ∧ now ≤ q.expiration →
       finalize_strategy b q now = .error (.program .QuorumNotReached)) ∧
     ((q.yes_votes + q.no_votes) * 100 ≥ q.snapshot_supply * q.quorum_percentage ∧
        ¬ q.yes_votes > q.no_votes ∧ now ≤ q.expiration →
       finalize_strategy b q now = .error (.program .NotApproved)) ∧
     ((q.yes_votes + q.no_votes) * 100 ≥ q.snapshot_supply * q.quorum_percentage ∧
        q.yes_votes > q.no_votes ∧ ¬ now ≤ q.expiration →
       finalize_strategy b q now = .error (.program .ProposalExpired))) :=
  ⟨finalize_threshold_spec b p now hp1 hp2 hp3,
   finalize_strategy_spec b q now hq1 hq2 hq3⟩

/-- Witness for C1 at a concrete input: both finalize kinds succeed on
`P1`/`Q1` (quorum met, 2 > 1, call at t = 0 before expiry 10). -/
theorem claim1_witness :
    (∃ r, finalize_threshold B1 P1 0 = .ok r) ∧
    (∃ r, finalize_strategy B1 Q1 0 = .ok r) :=
  ⟨((claim1_finalize_iff B1 P1 Q1 0 (by decide) (by decide) (by decide)
      (by decide) (by decide) (by decide)).1.1).mpr (by decide),
   ((claim1_finalize_iff B1 P1 Q1 0 (by decide) (by decide) (by decide)
      (by decide) (by decide) (by decide)).2.1).mpr (by decide)⟩

-- ─── C2 ───────────────────────────────────────────────────────────────────

/-- C2 counterexample: a voter already in `voters` who votes again on an
expired proposal is rejected with `ProposalExpired`, not `AlreadyVoted` (the
expiry check runs first), refuting the claim that a repeat vote always fails
with `AlreadyVoted`. -/
theorem claim2_counterexample :
    C2ctx.staker ∈ C2ctx.threshold_proposal.voters ∧
    vote_threshold C2ctx true 10 = .error (.program .ProposalExpired) ∧
    vote_threshold C2ctx true 10 ≠ .error (.program .AlreadyVoted) := by
  decide

/-- Repeat-voter outcome table for `vote_threshold`. -/
theorem vote_threshold_member_spec (ctx : VoteThresholdCtx) (accept : Bool)
    (now : Int) (hmem : ctx.staker ∈ ctx.threshold_proposal.voters) :
    (∃ e, vote_threshold ctx accept now = .error e) ∧
    run_vote_threshold ctx accept now = ctx ∧
    (now ≤ ctx.threshold_proposal.expiration →
      vote_threshold ctx accept now = .error (.program .AlreadyVoted)) ∧
    (¬ now ≤ ctx.threshold_proposal.expiration →
      vote_threshold ctx accept now = .error (.program .ProposalExpired)) := by
  by_cases hexp : now ≤ ctx.threshold_proposal.expiration
  · have h := vote_threshold_already ctx accept now hexp hmem
    exact ⟨⟨_, h⟩, by unfold run_vote_threshold; rw [h], fun _ => h,
      fun hc => absurd hexp hc⟩
  · have h := vote_threshold_expired ctx accept now hexp
    exact ⟨⟨_, h⟩, by unfold run_vote_threshold; rw [h],
      fun hc => absurd hc hexp, fun _ => h⟩

/-- Repeat-voter outcome table for `vote_assets`. -/
theorem vote_assets_member_spec (ctx : VoteAssetsCtx) (accept : Bool)
    (now : Int) (hmem : ctx.staker ∈ ctx.assets_proposal.voters) :
    (∃ e, vote_assets ctx accept now = .error e) ∧
    run_vote_assets ctx accept now = ctx ∧
    (now ≤ ctx.assets_proposal.expiration →
      vote_assets ctx accept now = .error (.program .AlreadyVoted)) ∧
    (¬ now ≤ ctx.assets_proposal.expiration →
      vote_assets ctx accept now = .error (.program .ProposalExpired)) := by
  by_cases hexp : now ≤ ctx.assets_proposal.expiration
  · have h := vote_assets_already ctx accept now hexp hmem
    exact ⟨⟨_, h⟩, by unfold run_vote_assets; rw [h], fun _ => h,
      fun hc => absurd hexp hc⟩
  · have h := vote_assets_expired ctx accept now hexp
    exact ⟨⟨_, h⟩, by unfold run_vote_assets; rw [h],
      fun hc => absurd hc hexp, fun _ => h⟩

/-- C2 (amended): for every proposal P and voter V, at most one vote call by
V on P succeeds: if V is already a member of `P.voters`, a further vote call
always fails and leaves `yes_votes`, `no_votes` and `voters` unchanged; the
error is `AlreadyVoted` when `now ≤ expiration`, and `ProposalExpired` when
the proposal has expired (the expiry check precedes the double-vote check).
Shown for `vote_threshold` and `vote_assets`. -/
theorem claim2_no_double_vote (ctx : VoteThresholdCtx) (ctxa : VoteAssetsCtx)
    (accept : Bool) (now : Int)
    (hmem : ctx.staker ∈ ctx.threshold_proposal.voters)
    (hmema : ctxa.staker ∈ ctxa.assets_proposal.voters) :
    ((∃ e, vote_threshold ctx accept now = .error e) ∧
     run_vote_threshold ctx accept now = ctx ∧
     (now ≤ ctx.threshold_proposal.expiration →
       vote_threshold ctx accept now = .error (.program .AlreadyVoted)) ∧
     (¬ now ≤ ctx.threshold_proposal.expiration →
       vote_threshold ctx accept now = .error (.program .ProposalExpired))) ∧
    ((∃ e, vote_assets ctxa accept now = .error e) ∧
     run_vote_assets ctxa accept now = ctxa ∧
     (now ≤ ctxa.assets_proposal.expiration →
       vote_assets ctxa accept now = .error (.program .AlreadyVoted)) ∧
     (¬ now ≤ ctxa.assets_proposal.expiration →
       vote_assets ctxa accept now = .error (.program .ProposalExpired))) :=
  ⟨vote_threshold_member_spec ctx accept now hmem,
   vote_assets_member_spec ctxa accept now hmema⟩

/-- Witness for C2 (amended) at concrete inputs: the expired threshold case
yields `ProposalExpired`, the live assets case yields `AlreadyVoted`. -/
theorem claim2_witness :
    vote_threshold C2ctx true 10 = .error (.program .ProposalExpired) ∧
    vote_assets C2actx true 10 = .error (.program .AlreadyVoted) :=
  ⟨(claim2_no_double_vote C2ctx C2actx true 10 (by decide) (by decide)).1.2.2.2
     (by decide),
   (claim2_no_double_vote C2ctx C2actx true 10 (by decide) (by decide)).2.2.2.1
     (by decide)⟩

-- ─── C3 ───────────────────────────────────────────────────────────────────

/-- C3: when the cooldown and whitelist gates pass and every checked
operation and CPI succeeds, `execute_rebalance` mints exactly
`spec_reward = base_reward * currentDeviation / threshold` tokens
(truncating division), additionally divided by `slash_factor` when
`currentDeviation > threshold`: supply and the executor's balance each grow
by exactly that amount. -/
theorem claim3_reward_formula (ctx : ExecuteRebalanceCtx) (dev : Nat)
    (now : Int) (h1 : I64_MIN ≤ now - ctx.basket.last_rebalance_ts)
    (h2 : now - ctx.basket.last_rebalance_ts ≤ I64_MAX)
    (hcool : now - ctx.basket.last_rebalance_ts ≥
      u64_as_i64 ctx.basket.cooldown_seconds)
    (hwl : ctx.basket.whitelist = [] ∨ ctx.bot_signer ∈ ctx.basket.whitelist)
    (hth : 0 < ctx.basket.threshold)
    (hmul : ctx.basket.base_reward * dev < U64_MOD)
    (hsl : dev > ctx.basket.threshold → 0 < ctx.basket.slash_factor)
    (hbm : ctx.bot_token_account.mint = ctx.basket.rebal_mint)
    (hsup : ctx.rebal_mint_supply + spec_reward ctx.basket dev < U64_MOD)
    (hbal : ctx.bot_token_account.amount + spec_reward ctx.basket dev < U64_MOD)
    (hlam : ctx.basket.lamports_reward ≤ ctx.fee_vault_lamports) :
    ∃ c, execute_rebalance ctx dev now = .ok (c, spec_reward ctx.basket dev) ∧
      c.rebal_mint_supply = ctx.rebal_mint_supply + spec_reward ctx.basket dev ∧
      c.bot_token_account.amount =
        ctx.bot_token_account.amount + spec_reward ctx.basket dev :=
  ⟨_, execute_rebalance_ok_eq ctx dev now h1 h2 hcool hwl hth hmul hsl hbm
      hsup hbal hlam, rfl, rfl⟩

/-- Witness for C3 at the spec's concrete numbers (`base_reward = 100`,
`threshold = 10`, `slash_factor = 2`): deviation 5 mints 50, deviation 20
mints 100 (slashed). -/
theorem claim3_witness :
    (∃ c, execute_rebalance R1 5 100 = .ok (c, 50)) ∧
    (∃ c, execute_rebalance R1 20 100 = .ok (c, 100)) := by
  constructor
  · obtain ⟨c, hc, -, -⟩ := claim3_reward_formula R1 5 100 (by decide)
      (by decide) (by decide) (by decide) (by decide) (by decide) (by decide)
      (by decide) (by decide) (by decide) (by decide)
    exact ⟨c, hc⟩
  · obtain ⟨c, hc, -, -⟩ := claim3_reward_formula R1 20 100 (by decide)
      (by decide) (by decide) (by decide) (by decide) (by decide) (by decide)
      (by decide) (by decide) (by decide) (by decide)
    exact ⟨c, hc⟩

-- ─── Success-shape lemmas for finalize ────────────────────────────────────

theorem bindU_eq_ok {α : Type} (o : Option Nat) (f : Nat → Except TxError α)
    (r : α) (h : bindU o f = .ok r) : ∃ a, o = some a ∧ f a = .ok r := by
  cases o with
  | none => simp [bindU] at h
  | some a => exact ⟨a, rfl, h⟩

theorem checked_add_some_bound {a b c : Nat} (h : checked_add a b = some c) :
    a + b < U64_MOD ∧ c = a + b := by
  unfold checked_add at h
  split_ifs at h with hlt
  · exact ⟨hlt, (Option.some.inj h).symm⟩

theorem checked_mul_some_bound {a b c : Nat} (h : checked_mul a b = some c) :
    a * b < U64_MOD ∧ c = a * b := by
  unfold checked_mul at h
  split_ifs at h with hlt
  · exact ⟨hlt, (Option.some.inj h).symm⟩

/-- A successful `finalize_threshold` returns exactly the basket with the
proposed threshold written, and the proposal unchanged. -/
theorem finalize_threshold_ok_shape (b : BasketConfig) (p : ThresholdProposal)
    (now : Int) (r : BasketConfig × ThresholdProposal)
    (h : finalize_threshold b p now = .ok r) :
    r = ({ b with threshold := p.proposed_threshold }, p) := by
  unfold finalize_threshold at h
  by_cases hexp : now ≤ p.expiration
  · rw [if_pos hexp] at h
    obtain ⟨t, -, h⟩ := bindU_eq_ok _ _ _ h
    obtain ⟨l, -, h⟩ := bindU_eq_ok _ _ _ h
    obtain ⟨w, -, h⟩ := bindU_eq_ok _ _ _ h
    split_ifs at h
    exact (Except.ok.inj h).symm
  · rw [if_neg hexp] at h
    exact absurd h (by simp)

/-- A successful `finalize_threshold` implies all three conditions held and
no checked operation overflowed. -/
theorem finalize_threshold_ok_conditions (b : BasketConfig)
    (p : ThresholdProposal) (now : Int) (r : BasketConfig × ThresholdProposal)
    (h : finalize_threshold b p now = .ok r) :
    p.yes_votes + p.no_votes < U64_MOD ∧
    (p.yes_votes + p.no_votes) * 100 < U64_MOD ∧
    p.snapshot_supply * p.quorum_percentage < U64_MOD ∧
    (p.yes_votes + p.no_votes) * 100 ≥ p.snapshot_supply * p.quorum_percentage ∧
    p.yes_votes > p.no_votes ∧ now ≤ p.expiration := by
  unfold finalize_threshold at h
  by_cases hexp : now ≤ p.expiration
  · rw [if_pos hexp] at h
    obtain ⟨t, ht, h⟩ := bindU_eq_ok _ _ _ h
    obtain ⟨ht1, ht2⟩ := checked_add_some_bound ht
    subst ht2
    obtain ⟨l, hl, h⟩ := bindU_eq_ok _ _ _ h
    obtain ⟨hl1, hl2⟩ := checked_mul_some_bound hl
    subst hl2
    obtain ⟨w, hw, h⟩ := bindU_eq_ok _ _ _ h
    obtain ⟨hw1, hw2⟩ := checked_mul_some_bound hw
    subst hw2
    split_ifs at h with hq hm
    exact ⟨ht1, hl1, hw1, hq, hm, hexp⟩
  · rw [if_neg hexp] at h
    exact absurd h (by simp)

/-- Assets variant of `finalize_threshold_ok_conditions`. -/
theorem finalize_assets_ok_conditions (b : BasketConfig)
    (p : AssetsProposal) (now : Int) (r : BasketConfig × AssetsProposal)
    (h : finalize_assets b p now = .ok r) :
    p.yes_votes + p.no_votes < U64_MOD ∧
    (p.yes_votes + p.no_votes) * 100 < U64_MOD ∧
    p.snapshot_supply * p.quorum_percentage < U64_MOD ∧
    (p.yes_votes + p.no_votes) * 100 ≥ p.snapshot_supply * p.quorum_percentage ∧
    p.yes_votes > p.no_votes ∧ now ≤ p.expiration := by
  unfold finalize_assets at h
  by_cases hexp : now ≤ p.expiration
  · rw [if_pos hexp] at h
    obtain ⟨t, ht, h⟩ := bindU_eq_ok _ _ _ h
    obtain ⟨ht1, ht2⟩ := checked_add_some_bound ht
    subst ht2
    obtain ⟨l, hl, h⟩ := bindU_eq_ok _ _ _ h
    obtain ⟨hl1, hl2⟩ := checked_mul_some_bound hl
    subst hl2
    obtain ⟨w, hw, h⟩ := bindU_eq_ok _ _ _ h
    obtain ⟨hw1, hw2⟩ := checked_mul_some_bound hw
    subst hw2
    split_ifs at h with hq hm
    exact ⟨ht1, hl1, hw1, hq, hm, hexp⟩
  · rw [if_neg hexp] at h
    exact absurd h (by simp)

-- ─── C4 ───────────────────────────────────────────────────────────────────

/-- C4 counterexample: `initialize_basket` accepts `initial_threshold = 0`
without validation, producing a reachable basket with `threshold = 0`; on
that basket the reward division in `execute_rebalance` is a division by
zero, which aborts fatally (modelled `TxError.overflow`). -/
theorem claim4_counterexample :
    B0.threshold = 0 ∧ execute_rebalance R0 5 100 = .error .overflow := by
  decide

/-- C4 (amended): the code never checks threshold positivity.  `threshold > 0`
is preserved only under side conditions: `initialize_basket` yields a
positive threshold iff called with a positive `initial_threshold`, and a
successful `finalize_threshold` yields a positive threshold iff the
proposal's `proposed_threshold` is positive (the new threshold is exactly
the proposed one). -/
theorem claim4_threshold_invariant (authority rebal_mint : Pubkey)
    (name description : String) (initial_threshold initial_strategy : Nat)
    (initial_assets : List Pubkey)
    (quorum_percentage cooldown_seconds base_reward lamports_reward : Nat)
    (slash_factor mint_auth_bump fee_vault_bump : Nat)
    (hpos : 0 < initial_threshold) (b : BasketConfig) (p : ThresholdProposal)
    (now : Int) (r : BasketConfig × ThresholdProposal)
    (hppos : 0 < p.proposed_threshold)
    (hfin : finalize_threshold b p now = .ok r) :
    0 < (initialize_basket authority rebal_mint name description
          initial_threshold initial_strategy initial_assets quorum_percentage
          cooldown_seconds base_reward lamports_reward slash_factor
          mint_auth_bump fee_vault_bump).threshold ∧
    r.1.threshold = p.proposed_threshold ∧ 0 < r.1.threshold := by
  refine ⟨hpos, ?_, ?_⟩ <;> rw [finalize_threshold_ok_shape b p now r hfin]
  · exact hppos

/-- Witness for C4 (amended) at concrete inputs: a positive initialization
and the successful finalize of `P1` over `B1`. -/
theorem claim4_witness :
    0 < (initialize_basket (PK 1) (PK 2) "basket" "demo" 5 1 [] 50 60 100 10 2
          255 254).threshold ∧
    (({ B1 with threshold := 25 }, P1) : BasketConfig × ThresholdProposal).1.threshold
      = P1.proposed_threshold ∧
    0 < (({ B1 with threshold := 25 }, P1) :
          BasketConfig × ThresholdProposal).1.threshold :=
  claim4_threshold_invariant (PK 1) (PK 2) "basket" "demo" 5 1 [] 50 60 100 10
    2 255 254 (by decide) B1 P1 0 ({ B1 with threshold := 25 }, P1) (by decide)
    (by decide)

-- ─── C5 ───────────────────────────────────────────────────────────────────

/-- C5 counterexample: a first `finalize_threshold` on `P1` succeeds and a
second call on the very same proposal succeeds again (nothing closes the
proposal), refuting "at most one finalize call ever succeeds". -/
theorem claim5_counterexample :
    finalize_threshold B1 P1 0 = .ok ({ B1 with threshold := 25 }, P1) ∧
    finalize_threshold { B1 with threshold := 25 } P1 0 =
      .ok ({ B1 with threshold := 25 }, P1) := by
  decide

/-- C5 (amended): `finalize_threshold` is not single-shot: a successful
finalize leaves the proposal account completely unchanged (no closed flag
exists), so any later finalize call on the same proposal at a time still
before expiration succeeds again, re-applying the same payload and reaching
the same state. -/
theorem claim5_refinalize (b : BasketConfig) (p : ThresholdProposal)
    (now now2 : Int) (r : BasketConfig × ThresholdProposal)
    (h : finalize_threshold b p now = .ok r) (hlt2 : now2 ≤ p.expiration) :
    r.2 = p ∧ finalize_threshold r.1 p now2 = .ok (r.1, p) := by
  have hshape := finalize_threshold_ok_shape b p now r h
  obtain ⟨h1, h2c, h3, hq, hm, -⟩ := finalize_threshold_ok_conditions b p now r h
  subst hshape
  refine ⟨rfl, ?_⟩
  rw [finalize_threshold_eq _ p now2 h1 h2c h3, if_pos hlt2, if_pos hq,
    if_pos hm]

/-- Witness for C5 (amended): instantiated on the concrete first finalize of
`P1` over `B1`, re-finalized at t = 0. -/
theorem claim5_witness :
    (({ B1 with threshold := 25 }, P1) : BasketConfig × ThresholdProposal).2 = P1 ∧
    finalize_threshold ({ B1 with threshold := 25 }, P1).1 P1 0 =
      .ok (({ B1 with threshold := 25 }, P1).1, P1) :=
  claim5_refinalize B1 P1 0 0 ({ B1 with threshold := 25 }, P1) (by decide)
    (by decide)

-- ─── C6 ───────────────────────────────────────────────────────────────────

/-- C6 counterexample: with `cooldown_seconds = 2 ^ 63` the Rust cast
`cooldown_seconds as i64` wraps negative, so a call at `now = 100` with
`last_rebalance_ts = 100` (elapsed time 0, far below the cooldown) passes
the gate and fully succeeds instead of failing with `CooldownActive`. -/
theorem claim6_counterexample :
    ((100 : Int) - R6.basket.last_rebalance_ts <
      (R6.basket.cooldown_seconds : Int)) ∧
    execute_rebalance R6 5 100 ≠ .error (.program .CooldownActive) ∧
    execute_rebalance R6 5 100 =
      .ok ({ R6 with
             basket := { B6 with last_rebalance_ts := 100 }
             rebal_mint_supply := 1050
             bot_token_account := { mint := PK 2, amount := 50 }
             fee_vault_lamports := 999990
             bot_lamports := 10 }, 50) := by
  decide

/-- C6 (amended): when `cooldown_seconds < 2 ^ 63` (so the `as i64` cast is
value-preserving) and `now - last_rebalance_ts` stays inside the i64 range,
`execute_rebalance` fails with `CooldownActive` exactly when
`now - last_rebalance_ts < cooldown_seconds`; for `cooldown_seconds ≥ 2 ^ 63`
the cast wraps negative and the gate always passes (counterexample). -/
theorem claim6_cooldown_gate (ctx : ExecuteRebalanceCtx) (dev : Nat)
    (now : Int) (h1 : I64_MIN ≤ now - ctx.basket.last_rebalance_ts)
    (h2 : now - ctx.basket.last_rebalance_ts ≤ I64_MAX)
    (h3 : ctx.basket.cooldown_seconds < 2 ^ 63) :
    execute_rebalance ctx dev now = .error (.program .CooldownActive) ↔
      now - ctx.basket.last_rebalance_ts < (ctx.basket.cooldown_seconds : Int) :=
  execute_rebalance_cooldown_iff ctx dev now h1 h2 h3

/-- Witness for C6 (amended): a call at t = 80 after a rebalance at t = 50
with a 60 s cooldown fails with `CooldownActive`. -/
theorem claim6_witness :
    execute_rebalance R6b 1 80 = .error (.program .CooldownActive) :=
  (claim6_cooldown_gate R6b 1 80 (by decide) (by decide) (by decide)).mpr
    (by decide)

-- ─── C7 ───────────────────────────────────────────────────────────────────

/-- C7 counterexample: a basket with `last_rebalance_ts = 0` and positive
`cooldown_seconds = 60` REJECTS its very first `execute_rebalance` call at
`now = 5` with `CooldownActive` (since `5 - 0 < 60`), refuting "the first
call never fails with CooldownActive". -/
theorem claim7_counterexample :
    R1.basket.last_rebalance_ts = 0 ∧ 0 < R1.basket.cooldown_seconds ∧
    execute_rebalance R1 1 5 = .error (.program .CooldownActive) := by
  decide

/-- C7 (amended): on a basket with `last_rebalance_ts = 0` (never
rebalanced) and `cooldown_seconds < 2 ^ 63`, the first `execute_rebalance`
call passes the cooldown gate iff `now ≥ cooldown_seconds`; it is eligible
for realistic clock values only because unix time exceeds any realistic
cooldown, not unconditionally. -/
theorem claim7_first_call_gate (ctx : ExecuteRebalanceCtx) (dev : Nat)
    (now : Int) (hlast : ctx.basket.last_rebalance_ts = 0)
    (h1 : I64_MIN ≤ now) (h2 : now ≤ I64_MAX)
    (h3 : ctx.basket.cooldown_seconds < 2 ^ 63) :
    execute_rebalance ctx dev now = .error (.program .CooldownActive) ↔
      now < (ctx.basket.cooldown_seconds : Int) := by
  have hiff := execute_rebalance_cooldown_iff ctx dev now
    (by rw [hlast]; simpa using h1) (by rw [hlast]; simpa using h2) h3
  rw [hlast] at hiff
  simpa using hiff

/-- Witness for C7 (amended): the first call on `R1` (cooldown 60) at
t = 5 fails with `CooldownActive`. -/
theorem claim7_witness :
    execute_rebalance R1 1 5 = .error (.program .CooldownActive) :=
  (claim7_first_call_gate R1 1 5 (by decide) (by decide) (by decide)
    (by decide)).mpr (by decide)

-- ─── C8 ───────────────────────────────────────────────────────────────────

/-- A finalize whose three conditions hold (and whose arithmetic fits)
succeeds with the proposed threshold written. -/
theorem finalize_threshold_ok_of_conditions (b : BasketConfig)
    (p : ThresholdProposal) (now : Int)
    (h1 : p.yes_votes + p.no_votes < U64_MOD)
    (h2 : (p.yes_votes + p.no_votes) * 100 < U64_MOD)
    (h3 : p.snapshot_supply * p.quorum_percentage < U64_MOD)
    (hexp : now ≤ p.expiration)
    (hq : (p.yes_votes + p.no_votes) * 100 ≥
      p.snapshot_supply * p.quorum_percentage)
    (hm : p.yes_votes > p.no_votes) :
    finalize_threshold b p now =
      .ok ({ b with threshold := p.proposed_threshold }, p) := by
  rw [finalize_threshold_eq b p now h1 h2 h3, if_pos hexp, if_pos hq,
    if_pos hm]

/-- Assets variant of `finalize_threshold_ok_of_conditions`. -/
theorem finalize_assets_ok_of_conditions (b : BasketConfig)
    (p : AssetsProposal) (now : Int)
    (h1 : p.yes_votes + p.no_votes < U64_MOD)
    (h2 : (p.yes_votes + p.no_votes) * 100 < U64_MOD)
    (h3 : p.snapshot_supply * p.quorum_percentage < U64_MOD)
    (hexp : now ≤ p.expiration)
    (hq : (p.yes_votes + p.no_votes) * 100 ≥
      p.snapshot_supply * p.quorum_percentage)
    (hm : p.yes_votes > p.no_votes) :
    finalize_assets b p now =
      .ok ({ b with eligible_assets := p.proposed_assets }, p) := by
  rw [finalize_assets_eq b p now h1 h2 h3, if_pos hexp, if_pos hq, if_pos hm]

/-- C8: a finalize call that fails any precondition leaves both Basket and
Proposal completely unchanged (the transaction aborts before any write), and
a later finalize on the same proposal whose tallies now satisfy quorum and
majority, still before expiry, succeeds.  Shown for `finalize_threshold` and
`finalize_assets`. -/
theorem claim8_failed_finalize_retry (b : BasketConfig) (p : ThresholdProposal)
    (pa : AssetsProposal) (now : Int) :
    ((∀ e, finalize_threshold b p now = .error e →
       run_finalize_threshold b p now = (b, p)) ∧
     (∀ y2 n2 v2 now2, now2 ≤ p.expiration → y2 + n2 < U64_MOD →
       (y2 + n2) * 100 < U64_MOD →
       p.snapshot_supply * p.quorum_percentage < U64_MOD →
       (y2 + n2) * 100 ≥ p.snapshot_supply * p.quorum_percentage → y2 > n2 →
       finalize_threshold b
           { p with yes_votes := y2, no_votes := n2, voters := v2 } now2 =
         .ok ({ b with threshold := p.proposed_threshold },
              { p with yes_votes := y2, no_votes := n2, voters := v2 }))) ∧
    ((∀ e, finalize_assets b pa now = .error e →
       run_finalize_assets b pa now = (b, pa)) ∧
     (∀ y2 n2 v2 now2, now2 ≤ pa.expiration → y2 + n2 < U64_MOD →
       (y2 + n2) * 100 < U64_MOD →
       pa.snapshot_supply * pa.quorum_percentage < U64_MOD →
       (y2 + n2) * 100 ≥ pa.snapshot_supply * pa.quorum_percentage → y2 > n2 →
       finalize_assets b
           { pa with yes_votes := y2, no_votes := n2, voters := v2 } now2 =
         .ok ({ b with eligible_assets := pa.proposed_assets },
              { pa with yes_votes := y2, no_votes := n2, voters := v2 }))) := by
  refine ⟨⟨?_, ?_⟩, ?_, ?_⟩
  · intro e he
    unfold run_finalize_threshold
    rw [he]
  · intro y2 n2 v2 now2 hexp hb1 hb2 hb3 hq hm
    exact finalize_threshold_ok_of_conditions b _ now2 hb1 hb2 hb3 hexp hq hm
  · intro e he
    unfold run_finalize_assets
    rw [he]
  · intro y2 n2 v2 now2 hexp hb1 hb2 hb3 hq hm
    exact finalize_assets_ok_of_conditions b _ now2 hb1 hb2 hb3 hexp hq hm

/-- Witness for C8: the empty-tally proposals `P8`/`A8` fail finalize and
leave the state unchanged; with the tallies topped up to 2 yes vs 1 no the
same proposals finalize successfully at t = 0. -/
theorem claim8_witness :
    run_finalize_threshold B1 P8 0 = (B1, P8) ∧
    finalize_threshold B1 { P8 with yes_votes := 2, no_votes := 1, voters := [PK 3] } 0 =
      .ok ({ B1 with threshold := 25 },
           { P8 with yes_votes := 2, no_votes := 1, voters := [PK 3] }) ∧
    run_finalize_assets B1 A8 0 = (B1, A8) ∧
    finalize_assets B1 { A8 with yes_votes := 2, no_votes := 1, voters := [PK 3] } 0 =
      .ok ({ B1 with eligible_assets := [PK 7] },
           { A8 with yes_votes := 2, no_votes := 1, voters := [PK 3] }) :=
  ⟨(claim8_failed_finalize_retry B1 P8 A8 0).1.1
     (.program .QuorumNotReached) (by decide),
   (claim8_failed_finalize_retry B1 P8 A8 0).1.2 2 1 [PK 3] 0 (by decide)
     (by decide) (by decide) (by decide) (by decide) (by decide),
   (claim8_failed_finalize_retry B1 P8 A8 0).2.1
     (.program .QuorumNotReached) (by decide),
   (claim8_failed_finalize_retry B1 P8 A8 0).2.2 2 1 [PK 3] 0 (by decide)
     (by decide) (by decide) (by decide) (by decide) (by decide)⟩

-- ─── C9 ───────────────────────────────────────────────────────────────────

/-- With `yes_votes = 0`, `finalize_threshold` can never succeed; the state
is unchanged, and absent arithmetic overflow the error is one of the three
program errors. -/
theorem finalize_threshold_zero_yes_spec (b : BasketConfig)
    (p : ThresholdProposal) (now : Int) (hy : p.yes_votes = 0) :
    (∀ r, finalize_threshold b p now ≠ .ok r) ∧
    run_finalize_threshold b p now = (b, p) ∧
    (p.no_votes * 100 < U64_MOD →
     p.snapshot_supply * p.quorum_percentage < U64_MOD →
     finalize_threshold b p now = .error (.program .ProposalExpired) ∨
     finalize_threshold b p now = .error (.program .QuorumNotReached) ∨
     finalize_threshold b p now = .error (.program .NotApproved)) := by
  have hno : ∀ r, finalize_threshold b p now ≠ .ok r := by
    intro r hr
    obtain ⟨-, -, -, -, hm, -⟩ := finalize_threshold_ok_conditions b p now r hr
    rw [hy] at hm
    exact Nat.not_lt_zero _ hm
  refine ⟨hno, ?_, ?_⟩
  · cases hfin : finalize_threshold b p now with
    | ok r => exact absurd hfin (hno r)
    | error e =>
      unfold run_finalize_threshold
      rw [hfin]
  · intro hn1 hn2
    have hle : p.no_votes ≤ p.no_votes * 100 :=
      Nat.le_mul_of_pos_right _ (by norm_num)
    have h1 : p.yes_votes + p.no_votes < U64_MOD := by
      rw [hy, Nat.zero_add]
      exact lt_of_le_of_lt hle hn1
    have h2 : (p.yes_votes + p.no_votes) * 100 < U64_MOD := by
      rw [hy, Nat.zero_add]
      exact hn1
    rw [finalize_threshold_eq b p now h1 h2 hn2]
    by_cases hexp : now ≤ p.expiration
    · by_cases hq : (p.yes_votes + p.no_votes) * 100 ≥
        p.snapshot_supply * p.quorum_percentage
      · right; right
        rw [if_pos hexp, if_pos hq, if_neg (show ¬ p.yes_votes > p.no_votes by
          rw [hy]; exact Nat.not_lt_zero _)]
      · right; left
        rw [if_pos hexp, if_neg hq]
    · left
      rw [if_neg hexp]

/-- Assets variant of `finalize_threshold_zero_yes_spec`. -/
theorem finalize_assets_zero_yes_spec (b : BasketConfig)
    (p : AssetsProposal) (now : Int) (hy : p.yes_votes = 0) :
    (∀ r, finalize_assets b p now ≠ .ok r) ∧
    run_finalize_assets b p now = (b, p) ∧
    (p.no_votes * 100 < U64_MOD →
     p.snapshot_supply * p.quorum_percentage < U64_MOD →
     finalize_assets b p now = .error (.program .ProposalExpired) ∨
     finalize_assets b p now = .error (.program .QuorumNotReached) ∨
     finalize_assets b p now = .error (.program .NotApproved)) := by
  have hno : ∀ r, finalize_assets b p now ≠ .ok r := by
    intro r hr
    obtain ⟨-, -, -, -, hm, -⟩ := finalize_assets_ok_conditions b p now r hr
    rw [hy] at hm
    exact Nat.not_lt_zero _ hm
  refine ⟨hno, ?_, ?_⟩
  · cases hfin : finalize_assets b p now with
    | ok r => exact absurd hfin (hno r)
    | error e =>
      unfold run_finalize_assets
      rw [hfin]
  · intro hn1 hn2
    have hle : p.no_votes ≤ p.no_votes * 100 :=
      Nat.le_mul_of_pos_right _ (by norm_num)
    have h1 : p.yes_votes + p.no_votes < U64_MOD := by
      rw [hy, Nat.zero_add]
      exact lt_of_le_of_lt hle hn1
    have h2 : (p.yes_votes + p.no_votes) * 100 < U64_MOD := by
      rw [hy, Nat.zero_add]
      exact hn1
    rw [finalize_assets_eq b p now h1 h2 hn2]
    by_cases hexp : now ≤ p.expiration
    · by_cases hq : (p.yes_votes + p.no_votes) * 100 ≥
        p.snapshot_supply * p.quorum_percentage
      · right; right
        rw [if_pos hexp, if_pos hq, if_neg (show ¬ p.yes_votes > p.no_votes by
          rw [hy]; exact Nat.not_lt_zero _)]
      · right; left
        rw [if_pos hexp, if_neg hq]
    · left
      rw [if_neg hexp]

/-- C9: a proposal with `yes_votes = 0` can never be finalized: the strict
majority check `yes_votes > no_votes` is unsatisfiable, so finalize always
fails, the basket is unchanged, and (absent arithmetic overflow in the
quorum computation) the error is `ProposalExpired`, `QuorumNotReached` or
`NotApproved`.  Shown for `finalize_threshold` and `finalize_assets`. -/
theorem claim9_zero_yes_never_applies (b : BasketConfig)
    (p : ThresholdProposal) (pa : AssetsProposal) (now : Int)
    (hy : p.yes_votes = 0) (hya : pa.yes_votes = 0) :
    ((∀ r, finalize_threshold b p now ≠ .ok r) ∧
     run_finalize_threshold b p now = (b, p) ∧
     (p.no_votes * 100 < U64_MOD →
      p.snapshot_supply * p.quorum_percentage < U64_MOD →
      finalize_threshold b p now = .error (.program .ProposalExpired) ∨
      finalize_threshold b p now = .error (.program .QuorumNotReached) ∨
      finalize_threshold b p now = .error (.program .NotApproved))) ∧
    ((∀ r, finalize_assets b pa now ≠ .ok r) ∧
     run_finalize_assets b pa now = (b, pa) ∧
     (pa.no_votes * 100 < U64_MOD →
      pa.snapshot_supply * pa.quorum_percentage < U64_MOD →
      finalize_assets b pa now = .error (.program .ProposalExpired) ∨
      finalize_assets b pa now = .error (.program .QuorumNotReached) ∨
      finalize_assets b pa now = .error (.program .NotApproved))) :=
  ⟨finalize_threshold_zero_yes_spec b p now hy,
   finalize_assets_zero_yes_spec b pa now hya⟩

/-- Witness for C9 on the concrete zero-yes proposals `P9`/`A9`. -/
theorem claim9_witness :
    run_finalize_threshold B1 P9 0 = (B1, P9) ∧
    (finalize_threshold B1 P9 0 = .error (.program .ProposalExpired) ∨
     finalize_threshold B1 P9 0 = .error (.program .QuorumNotReached) ∨
     finalize_threshold B1 P9 0 = .error (.program .NotApproved)) ∧
    run_finalize_assets B1 A9 0 = (B1, A9) :=
  ⟨(claim9_zero_yes_never_applies B1 P9 A9 0 (by decide) (by decide)).1.2.1,
   (claim9_zero_yes_never_applies B1 P9 A9 0 (by decide) (by decide)).1.2.2
     (by decide) (by decide),
   (claim9_zero_yes_never_applies B1 P9 A9 0 (by decide) (by decide)).2.2.1⟩

-- ─── C10 ──────────────────────────────────────────────────────────────────

/-- C10: on an open, unexpired proposal a fresh voter whose holding account
balance is 0 votes successfully with weight 0: `yes_votes` and `no_votes`
are unchanged and the voter is appended to `voters`, after which every
further vote by that voter before expiry fails with `AlreadyVoted` — even
with a replaced holding account holding tokens.  Shown for `vote_threshold`
and `vote_strategy`. -/
theorem claim10_zero_balance_vote (ctx : VoteThresholdCtx)
    (ctxs : VoteStrategyCtx) (accept : Bool) (now : Int)
    (hexp : now ≤ ctx.threshold_proposal.expiration)
    (hmem : ctx.staker ∉ ctx.threshold_proposal.voters)
    (hz : ctx.staker_tokens.amount = 0)
    (hmint : ctx.staker_tokens.mint = ctx.escrow.mint)
    (hesc : ctx.escrow.amount < U64_MOD)
    (hy : ctx.threshold_proposal.yes_votes < U64_MOD)
    (hn : ctx.threshold_proposal.no_votes < U64_MOD)
    (hexps : now ≤ ctxs.strategy_proposal.expiration)
    (hmems : ctxs.staker ∉ ctxs.strategy_proposal.voters)
    (hzs : ctxs.staker_tokens.amount = 0)
    (hmints : ctxs.staker_tokens.mint = ctxs.escrow.mint)
    (hescs : ctxs.escrow.amount < U64_MOD)
    (hys : ctxs.strategy_proposal.yes_votes < U64_MOD)
    (hns : ctxs.strategy_proposal.no_votes < U64_MOD) :
    (∃ c, vote_threshold ctx accept now = .ok c ∧
      c.threshold_proposal.yes_votes = ctx.threshold_proposal.yes_votes ∧
      c.threshold_proposal.no_votes = ctx.threshold_proposal.no_votes ∧
      c.threshold_proposal.voters =
        ctx.threshold_proposal.voters ++ [ctx.staker] ∧
      (∀ accept2 now2 tok2, now2 ≤ c.threshold_proposal.expiration →
        vote_threshold { c with staker_tokens := tok2 } accept2 now2 =
          .error (.program .AlreadyVoted))) ∧
    (∃ c, vote_strategy ctxs accept now = .ok c ∧
      c.strategy_proposal.yes_votes = ctxs.strategy_proposal.yes_votes ∧
      c.strategy_proposal.no_votes = ctxs.strategy_proposal.no_votes ∧
      c.strategy_proposal.voters =
        ctxs.strategy_proposal.voters ++ [ctxs.staker] ∧
      (∀ accept2 now2 tok2, now2 ≤ c.strategy_proposal.expiration →
        vote_strategy { c with staker_tokens := tok2 } accept2 now2 =
          .error (.program .AlreadyVoted))) := by
  refine ⟨⟨_, vote_threshold_zero ctx accept now hexp hmem hz hmint hesc hy hn,
      rfl, rfl, rfl, ?_⟩,
    ⟨_, vote_strategy_zero ctxs accept now hexps hmems hzs hmints hescs hys
      hns, rfl, rfl, rfl, ?_⟩⟩
  · intro accept2 now2 tok2 hlt
    exact vote_threshold_already _ accept2 now2 hlt (by simp)
  · intro accept2 now2 tok2 hlt
    exact vote_strategy_already _ accept2 now2 hlt (by simp)

/-- Witness for C10: the empty-balance staker `PK 5` votes successfully on
the concrete proposals `P1` and `Q1` at t = 0. -/
theorem claim10_witness :
    (∃ c, vote_threshold C10ctx true 0 = .ok c) ∧
    (∃ c, vote_strategy C10sctx true 0 = .ok c) := by
  obtain ⟨⟨c, hc, -⟩, ⟨cs, hcs, -⟩⟩ := claim10_zero_balance_vote C10ctx
    C10sctx true 0 (by decide) (by decide) (by decide) (by decide) (by decide)
    (by decide) (by decide) (by decide) (by decide) (by decide) (by decide)
    (by decide) (by decide) (by decide)
  exact ⟨⟨c, hc⟩, ⟨cs, hcs⟩⟩
